import Mathlib

/-!
Shallow embedding of the PolicyEngine profiler harness.

The embedded code is `profile_step` together with the comparison metrics
computed inline after the two profiled runs (`app.py` lines 234-255 and
287-298) and the chart/report constants (`app.py` lines 323-389); the same
comparison formulas appear in `example_profile.py` lines 72-81.

Modelling conventions:
* wall-clock times and profiler cumulative times are rationals;
* Python float division by zero raises `ZeroDivisionError`; fallible
  computations return `Except PyErr`;
* a zero-argument callable passed to `profile_step` is a value `Op α`
  carrying the wall-clock duration its single execution consumes, the
  per-function cumulative-time rows the profiler records while it runs,
  and its outcome (a value or a raised exception);
* the ambient interpreter state is a `World`: the current wall clock, the
  cProfile enabled flag, and a counter of operation executions performed.
-/

namespace PolicyEngineProfiler

/-- Exception classes that appear in the profiled program: the external
library's construction / unknown-variable failures, and Python's
`ZeroDivisionError`. -/
inductive PyErr where
  | constructionError
  | unknownVariableError
  | zeroDivisionError
deriving DecidableEq

/-- Python float division: raises `ZeroDivisionError` on a zero divisor,
otherwise returns the exact quotient. -/
def pydiv (a b : ℚ) : Except PyErr ℚ :=
  if b = 0 then .error .zeroDivisionError else .ok (a / b)

/-- `overhead = reform_result['time'] - baseline_result['time']`
(`app.py` line 287; `example_profile.py` line 72). -/
def overhead (baseline_time reform_time : ℚ) : ℚ :=
  reform_time - baseline_time

/-- `overhead_pct = (reform_result['time'] / baseline_result['time'] - 1) * 100`
(`app.py` line 288; `example_profile.py` line 73). -/
def overhead_pct (baseline_time reform_time : ℚ) : Except PyErr ℚ :=
  (pydiv reform_time baseline_time).map (fun q => (q - 1) * 100)

/-- The slowdown factor `reform_result['time'] / baseline_result['time']`
(`app.py` line 298; `example_profile.py` line 81). -/
def slowdown_factor (baseline_time reform_time : ℚ) : Except PyErr ℚ :=
  pydiv reform_time baseline_time

/-- Interpreter state threaded through a profiled run: current wall clock
(`time.time()`), whether the cProfile session is enabled, and how many
wrapped operations have been executed so far. -/
structure World where
  clock : ℚ
  profilerEnabled : Bool
  runCount : ℕ
deriving DecidableEq

/-- A zero-argument callable handed to `profile_step`: the wall-clock
duration one execution consumes, the (function name, cumulative time) rows
the profiler records during that execution, and the outcome — a returned
value or a raised exception. -/
structure Op (α : Type) where
  dur : ℚ
  calls : List (String × ℚ)
  outcome : Except PyErr α

/-- Execute the callable once: the wall clock advances by its duration, the
execution counter increments, and its outcome is produced. -/
def runOp {α : Type} (f : Op α) (w : World) : Except PyErr α × World :=
  (f.outcome, { w with clock := w.clock + f.dur, runCount := w.runCount + 1 })

/-- The dict returned by `profile_step` (`app.py` lines 250-255):
`{'name': ..., 'time': elapsed, 'result': result, 'profile': s.getvalue()}`.
The `profile` field is modelled as the list of entry rows rendered into the
text, in rendered order. -/
structure Report (α : Type) where
  name : String
  time : ℚ
  result : α
  profile : List (String × ℚ)
deriving DecidableEq

/-- Descending-by-cumulative-time order on profile rows: `cumGE a b` holds
when `a`'s cumulative time is at least `b`'s. -/
def cumGE (a b : String × ℚ) : Prop := b.2 ≤ a.2

instance : DecidableRel cumGE := fun a b => inferInstanceAs (Decidable (b.2 ≤ a.2))

instance : IsTotal (String × ℚ) cumGE := ⟨fun a b => le_total b.2 a.2⟩

instance : IsTrans (String × ℚ) cumGE := ⟨fun _ _ _ hab hbc => le_trans hbc hab⟩

/-- `pstats.Stats(pr, stream=s).sort_stats('cumulative')` (`app.py` line 247):
a stable sort of the recorded rows by cumulative time, descending; Python's
sort is stable, so ties keep discovery order. `List.insertionSort` with
`cumGE` is exactly such a stable descending sort. -/
def sort_stats_cumulative (rows : List (String × ℚ)) : List (String × ℚ) :=
  List.insertionSort cumGE rows

/-- `ps.print_stats(20)` (`app.py` line 248): only the first 20 rows of the
sorted list are rendered into the profile text; the rest are discarded. -/
def profile_entries (rows : List (String × ℚ)) : List (String × ℚ) :=
  (sort_stats_cumulative rows).take 20

/-- `profile_step` (`app.py` lines 234-255), straight-line as in the source:

    pr = cProfile.Profile(); pr.enable()
    start = time.time()
    result = func()            -- may raise; nothing catches it
    elapsed = time.time() - start
    pr.disable()
    ... stats ...
    return {'name', 'time', 'result', 'profile'}

There is no `try`/`finally`: when `func()` raises, the lines after it —
including `pr.disable()` — never run. -/
def profile_step {α : Type} (name : String) (func : Op α) (w : World) :
    Except PyErr (Report α) × World :=
  let w1 : World := { w with profilerEnabled := true }
  let start := w1.clock
  match runOp func w1 with
  | (.error e, w2) => (.error e, w2)
  | (.ok v, w2) =>
      let elapsed := w2.clock - start
      let w3 : World := { w2 with profilerEnabled := false }
      (.ok { name := name, time := elapsed, result := v,
             profile := profile_entries func.calls }, w3)

/-- Labels of the "Reform Time Breakdown" pie trace (`app.py` line 326). -/
def pie_labels : List String :=
  ["Parameter Uprating", "Other Overhead", "Base Simulation"]

/-- Values of the pie trace (`app.py` line 327):
`[overhead * 0.68, overhead * 0.32, baseline_result['time']]`, where
`overhead` is the difference of the two measured times; nothing from the
recorded profiles enters the computation. -/
def pie_values {α : Type} (baseline_result reform_result : Report α) : List ℚ :=
  [overhead baseline_result.time reform_result.time * (68 / 100),
   overhead baseline_result.time reform_result.time * (32 / 100),
   baseline_result.time]

/-- `baseline_calls = 100000  # Estimated` (`app.py` line 336). -/
def baseline_calls : ℕ := 100000

/-- `reform_calls = 85600000  # Typical for reform` (`app.py` line 337). -/
def reform_calls : ℕ := 85600000

/-- Bar heights of the "Function Calls" subplot (`app.py` lines 339-350):
`[baseline_calls / 1e6, reform_calls / 1e6]`. The two report arguments are
in scope in the source but unused — the heights are constants. -/
def calls_chart_values {α : Type} (_baseline_result _reform_result : Report α) :
    List ℚ :=
  [(baseline_calls : ℚ) / 1000000, (reform_calls : ℚ) / 1000000]

/-- The multiplier in the `st.info` text (`app.py` line 375):
`reform_calls / baseline_calls`, again computed from the two constants and
not from the measurements. -/
def calls_multiplier {α : Type} (_baseline_result _reform_result : Report α) : ℚ :=
  (reform_calls : ℚ) / (baseline_calls : ℚ)

/-- A concrete operation that raises (the external library rejecting its
input), used to exercise the failure path of `profile_step`. -/
def failOp : Op Unit :=
  { dur := 1, calls := [], outcome := .error .constructionError }

/-- A concrete operation that returns the value 42 after 2 seconds. -/
def okOp : Op ℕ :=
  { dur := 2, calls := [("g", 1)], outcome := .ok 42 }

/-- A concrete operation that sleeps 3/10 of a second and returns. -/
def sleepOp : Op Unit :=
  { dur := 3 / 10, calls := [], outcome := .ok () }

/-- An initial interpreter state. -/
def w0 : World := { clock := 0, profilerEnabled := false, runCount := 0 }

/-- A synthetic profile of 25 distinguishable functions with distinct
cumulative times, in discovery order. -/
def calls25 : List (String × ℚ) :=
  [("f1", 1), ("f2", 2), ("f3", 3), ("f4", 4), ("f5", 5),
   ("f6", 6), ("f7", 7), ("f8", 8), ("f9", 9), ("f10", 10),
   ("f11", 11), ("f12", 12), ("f13", 13), ("f14", 14), ("f15", 15),
   ("f16", 16), ("f17", 17), ("f18", 18), ("f19", 19), ("f20", 20),
   ("f21", 21), ("f22", 22), ("f23", 23), ("f24", 24), ("f25", 25)]

/-- The 20 rows of `calls25` with greatest cumulative time, descending. -/
def top20of25 : List (String × ℚ) :=
  [("f25", 25), ("f24", 24), ("f23", 23), ("f22", 22), ("f21", 21),
   ("f20", 20), ("f19", 19), ("f18", 18), ("f17", 17), ("f16", 16),
   ("f15", 15), ("f14", 14), ("f13", 13), ("f12", 12), ("f11", 11),
   ("f10", 10), ("f9", 9), ("f8", 8), ("f7", 7), ("f6", 6)]

/-- C3: for baseline time `b > 0` and candidate time `c`, the derived
metrics are exactly `overhead = c - b`,
`overhead_pct = (c / b - 1) * 100` and `slowdown = c / b`; in particular
baseline 2.0 and candidate 6.0 give overhead percent 200 and factor 3. -/
theorem comparison_metrics_exact (b c : ℚ) (h : 0 < b) :
    overhead b c = c - b ∧
    overhead_pct b c = .ok ((c / b - 1) * 100) ∧
    slowdown_factor b c = .ok (c / b) ∧
    overhead_pct 2 6 = .ok 200 ∧
    slowdown_factor 2 6 = .ok 3 := by
  have hb : b ≠ 0 := ne_of_gt h
  refine ⟨rfl, ?_, ?_, ?_, ?_⟩
  · simp [overhead_pct, pydiv, hb, Except.map]
  · simp [slowdown_factor, pydiv, hb]
  · norm_num [overhead_pct, pydiv, Except.map]
  · norm_num [slowdown_factor, pydiv]

/-- Witness for `comparison_metrics_exact` at baseline 2, candidate 6. -/
theorem comparison_metrics_exact_witness :
    (0 : ℚ) < 2 ∧
    (overhead 2 6 = 6 - 2 ∧
     overhead_pct 2 6 = .ok ((6 / 2 - 1) * 100) ∧
     slowdown_factor 2 6 = .ok (6 / 2) ∧
     overhead_pct 2 6 = .ok 200 ∧
     slowdown_factor 2 6 = .ok 3) :=
  ⟨by norm_num, comparison_metrics_exact 2 6 (by norm_num)⟩

/-- C6: with baseline elapsed time 0, both derived quotients fail with
`ZeroDivisionError` instead of silently producing a number. -/
theorem zero_baseline_raises (c : ℚ) :
    overhead_pct 0 c = .error .zeroDivisionError ∧
    slowdown_factor 0 c = .error .zeroDivisionError := by
  constructor
  · simp [overhead_pct, pydiv, Except.map]
  · simp [slowdown_factor, pydiv]

/-- C2 counterexample: at baseline elapsed 0 (candidate 6) the derivation
raises `ZeroDivisionError` from the division itself — an arithmetic
exception is raised, so no "baseline too fast to compare" condition is ever
reported in its place. -/
theorem zero_baseline_not_guarded :
    overhead_pct 0 6 = .error .zeroDivisionError := by
  simp [overhead_pct, pydiv, Except.map]

/-- C2 (amended): the comparison code performs no precondition check for a
zero baseline time: the subtraction still yields `c`, and both quotients
raise `ZeroDivisionError`, which propagates uncaught; no substitute report
is produced. -/
theorem zero_baseline_amended (c : ℚ) :
    overhead 0 c = c ∧
    overhead_pct 0 c = .error .zeroDivisionError ∧
    slowdown_factor 0 c = .error .zeroDivisionError := by
  refine ⟨by simp [overhead], ?_, ?_⟩
  · simp [overhead_pct, pydiv, Except.map]
  · simp [slowdown_factor, pydiv]

/-- C10: for baseline time `b > 0` the percentage metric is determined by
the slowdown factor through `pct = (factor - 1) * 100`, exactly. -/
theorem pct_determined_by_factor (b c : ℚ) (h : 0 < b) :
    ∃ r, slowdown_factor b c = .ok r ∧
      overhead_pct b c = .ok ((r - 1) * 100) := by
  have hb : b ≠ 0 := ne_of_gt h
  exact ⟨c / b, by simp [slowdown_factor, pydiv, hb],
         by simp [overhead_pct, pydiv, hb, Except.map]⟩

/-- Witness for `pct_determined_by_factor` at baseline 2, candidate 6. -/
theorem pct_determined_by_factor_witness :
    (0 : ℚ) < 2 ∧
    ∃ r, slowdown_factor 2 6 = .ok r ∧
      overhead_pct 2 6 = .ok ((r - 1) * 100) :=
  ⟨by norm_num, pct_determined_by_factor 2 6 (by norm_num)⟩

/-- C1 counterexample: running `profile_step` on the concrete raising
operation `failOp` leaves the profiler enabled — `pr.disable()` is not
reached on the failure path, so the session is not cleanly torn down. -/
theorem failure_leaves_profiler_enabled :
    ¬ (profile_step "Baseline" failOp w0).2.profilerEnabled = false := by
  decide

/-- C1 (amended): when the wrapped operation raises, `profile_step`
propagates the exception unmodified and produces no (partial) report, but
the cProfile session is NOT torn down: `pr.disable()` is skipped and the
profiler remains enabled after the call. -/
theorem failure_propagates_no_disable {α : Type} (name : String) (func : Op α)
    (w : World) (e : PyErr) (h : func.outcome = .error e) :
    (profile_step name func w).1 = .error e ∧
    (profile_step name func w).2.profilerEnabled = true := by
  unfold profile_step runOp
  rw [h]
  exact ⟨rfl, rfl⟩

/-- Witness for `failure_propagates_no_disable` on the concrete raising
operation `failOp`. -/
theorem failure_propagates_no_disable_witness :
    failOp.outcome = .error PyErr.constructionError ∧
    ((profile_step "Baseline" failOp w0).1 = .error PyErr.constructionError ∧
     (profile_step "Baseline" failOp w0).2.profilerEnabled = true) :=
  ⟨rfl, failure_propagates_no_disable "Baseline" failOp w0
    PyErr.constructionError rfl⟩

/-- C5: when the wrapped operation returns `v`, `profile_step` executes it
exactly once (the execution counter increments by one) and the report
carries `v` verbatim in its `result` field. -/
theorem result_passthrough {α : Type} (name : String) (func : Op α)
    (w : World) (v : α) (h : func.outcome = .ok v) :
    ∃ rep : Report α, (profile_step name func w).1 = .ok rep ∧
      rep.result = v ∧
      (profile_step name func w).2.runCount = w.runCount + 1 := by
  unfold profile_step runOp
  rw [h]
  exact ⟨_, rfl, rfl, rfl⟩

/-- Witness for `result_passthrough` on the concrete operation `okOp`. -/
theorem result_passthrough_witness :
    okOp.outcome = .ok 42 ∧
    ∃ rep : Report ℕ, (profile_step "Step" okOp w0).1 = .ok rep ∧
      rep.result = 42 ∧
      (profile_step "Step" okOp w0).2.runCount = w0.runCount + 1 :=
  ⟨rfl, result_passthrough "Step" okOp w0 42 rfl⟩

/-- C8: with a monotone clock (nonnegative duration), the reported elapsed
time is the difference of the clock readings bracketing the invocation, is
nonnegative, and for an operation sleeping at least `T` it is at least `T`. -/
theorem elapsed_from_clock_readings {α : Type} (name : String) (func : Op α)
    (w : World) (v : α) (T : ℚ) (h : func.outcome = .ok v)
    (hmono : 0 ≤ func.dur) (hT : T ≤ func.dur) :
    ∃ rep : Report α, (profile_step name func w).1 = .ok rep ∧
      rep.time = (profile_step name func w).2.clock - w.clock ∧
      0 ≤ rep.time ∧ T ≤ rep.time := by
  unfold profile_step runOp
  rw [h]
  refine ⟨_, rfl, rfl, ?_, ?_⟩
  · simpa using hmono
  · simpa using hT

/-- Witness for `elapsed_from_clock_readings` on the concrete sleeping
operation `sleepOp` with sleep duration 3/10. -/
theorem elapsed_from_clock_readings_witness :
    sleepOp.outcome = .ok () ∧ 0 ≤ sleepOp.dur ∧ (3 / 10 : ℚ) ≤ sleepOp.dur ∧
    (∃ rep : Report Unit, (profile_step "Sleep" sleepOp w0).1 = .ok rep ∧
      rep.time = (profile_step "Sleep" sleepOp w0).2.clock - w0.clock ∧
      0 ≤ rep.time ∧ (3 / 10 : ℚ) ≤ rep.time) :=
  ⟨rfl, by norm_num [sleepOp], by norm_num [sleepOp],
   elapsed_from_clock_readings "Sleep" sleepOp w0 () (3 / 10) rfl
     (by norm_num [sleepOp]) (by norm_num [sleepOp])⟩

/-- C4: when more than 20 rows are recorded, exactly 20 are rendered, in
descending cumulative-time order; every discarded row has cumulative time
at most that of every rendered row, and rendered plus discarded rows are a
permutation of the recorded multiset. On the 25-row synthetic profile with
distinct times, precisely the top 20 appear, descending. -/
theorem profile_truncation (rows : List (String × ℚ))
    (h : 20 < rows.length) :
    (profile_entries rows).length = 20 ∧
    List.Sorted cumGE (profile_entries rows) ∧
    (∀ x ∈ profile_entries rows,
      ∀ y ∈ (sort_stats_cumulative rows).drop 20, y.2 ≤ x.2) ∧
    List.Perm (profile_entries rows ++ (sort_stats_cumulative rows).drop 20)
      rows ∧
    profile_entries calls25 = top20of25 := by
  have hsorted : List.Sorted cumGE (sort_stats_cumulative rows) :=
    List.sorted_insertionSort cumGE rows
  have hsplit : (sort_stats_cumulative rows).take 20 ++
      (sort_stats_cumulative rows).drop 20 = sort_stats_cumulative rows :=
    List.take_append_drop 20 _
  have hpair : List.Pairwise cumGE ((sort_stats_cumulative rows).take 20 ++
      (sort_stats_cumulative rows).drop 20) := by
    rw [hsplit]; exact hsorted
  refine ⟨?_, ?_, ?_, ?_, ?_⟩
  · simp only [profile_entries, sort_stats_cumulative, List.length_take,
      List.length_insertionSort]
    omega
  · exact (List.pairwise_append.mp hpair).1
  · exact (List.pairwise_append.mp hpair).2.2
  · have heq : profile_entries rows ++ (sort_stats_cumulative rows).drop 20 =
        sort_stats_cumulative rows := hsplit
    rw [heq]
    exact List.perm_insertionSort cumGE rows
  · decide

/-- Witness for `profile_truncation` on the 25-row synthetic profile. -/
theorem profile_truncation_witness :
    20 < calls25.length ∧
    ((profile_entries calls25).length = 20 ∧
     List.Sorted cumGE (profile_entries calls25) ∧
     (∀ x ∈ profile_entries calls25,
       ∀ y ∈ (sort_stats_cumulative calls25).drop 20, y.2 ≤ x.2) ∧
     List.Perm
       (profile_entries calls25 ++ (sort_stats_cumulative calls25).drop 20)
       calls25 ∧
     profile_entries calls25 = top20of25) :=
  ⟨by decide, profile_truncation calls25 (by decide)⟩

/-- C7: the "Reform Time Breakdown" pie renders the hardcoded 68%/32%
split of the measured overhead (plus the baseline time); the recorded
profiles and operation results do not enter the computation at all. -/
theorem pie_split_hardcoded {α : Type} (n1 n2 : String) (bt rt : ℚ)
    (br rr : α) (bp rp : List (String × ℚ)) :
    pie_values (Report.mk n1 bt br bp) (Report.mk n2 rt rr rp) =
      [(rt - bt) * (68 / 100), (rt - bt) * (32 / 100), bt] ∧
    pie_labels = ["Parameter Uprating", "Other Overhead", "Base Simulation"] :=
  ⟨rfl, rfl⟩

/-- C9: the "Function Calls" chart heights and the "x more function calls"
multiplier come from the hardcoded constants 100000 and 85600000: for every
pair of reports they equal 0.1M and 85.6M with multiplier 856, identical
across all measurements. -/
theorem calls_chart_hardcoded {α : Type} (b r b2 r2 : Report α) :
    calls_chart_values b r = [1 / 10, 856 / 10] ∧
    calls_chart_values b r = calls_chart_values b2 r2 ∧
    calls_multiplier b r = 856 := by
  refine ⟨?_, rfl, ?_⟩
  · norm_num [calls_chart_values, baseline_calls, reform_calls]
  · norm_num [calls_multiplier, baseline_calls, reform_calls]

end PolicyEngineProfiler
